import Mathlib

/-!
Formal model of the pythonalsa control layer (src/pythonalsa/alsa.py).

The native ALSA library is opaque to the Python code: each binding call
either returns an integer status code (negative meaning failure), fills an
out-parameter, or both.  We model one card / one mixer element worth of
native behaviour as a `NativeEnv` (status codes the native calls will
return, capability bits, the reported volume range, and the decoded
error-string function `snd_strerror`) together with a mutable
`NativeStore` (the raw playback volume and the playback-switch value that
`..._all` setters overwrite and channel-0 getters read back).

Each Python method is translated into a Lean function from the
environment (and store) to a result paired with the list of native calls
it performed, so that "performs zero native calls" and "the mixer handle
is closed on every path after it was opened" are statable.  Numeric
conversion uses exact rational arithmetic with Python's `round`
(round-half-to-even) made explicit as `pyRound`.
-/

/-- Python exception kinds raised by alsa.py: `ALSAError` (native failures and
capability-check failures), `ValueError` (percentage validation), and
`TypeError` (arithmetic on `None`, unreachable in well-formed environments). -/
inductive PyError where
  | ALSAError (msg : String)
  | ValueError (msg : String)
  | TypeError (msg : String)
deriving DecidableEq

/-- The status-returning / state-touching native calls alsa.py performs,
recorded in traces. -/
inductive NativeCall where
  | cardGetIndex
  | mixerOpen
  | mixerAttach
  | mixerRegister
  | mixerLoad
  | mixerClose
  | findSelem
  | hasPlaybackVolume
  | hasPlaybackSwitch
  | getVolumeRange
  | getVolume
  | setVolume (v : Int)
  | getSwitch
  | setSwitch (v : Int)
deriving DecidableEq

/-- One card / one mixer element worth of native-layer behaviour: the status
code each native call returns, the capability bits, the reported volume
range, whether the element lookup succeeds, and `snd_strerror`. -/
structure NativeEnv where
  strerror : Int → String
  cardGetIndexStatus : Int
  defaultIndex : Int
  openStatus : Int
  attachStatus : Int
  registerStatus : Int
  loadStatus : Int
  findSelemOk : Bool
  hasPlaybackVolume : Bool
  hasPlaybackSwitch : Bool
  pmin : Int
  pmax : Int
  rangeStatus : Int
  getVolumeStatus : Int
  setVolumeStatus : Int
  getSwitchStatus : Int
  setSwitchStatus : Int

/-- Mutable native state: the stored raw playback volume and playback-switch
value.  The `..._all` setters keep every channel in lock-step and the getters
read channel 0, so a single cell per quantity suffices. -/
structure NativeStore where
  volume : Int
  switch : Int
deriving DecidableEq

/-- Result of an operation: the Python-level outcome plus the trace of native
calls performed. -/
abbrev Res (α : Type) := Except PyError α × List NativeCall

/-- alsa.py `_check_error`: check a status code and raise `ALSAError` if it is
negative, with the message `summary ++ ": " ++ snd_strerror err`. -/
def check_error (strerror : Int → String) (err : Int) (summary : String) :
    Except PyError Unit :=
  if err < 0 then .error (.ALSAError (summary ++ ": " ++ strerror err))
  else .ok ()

/-- alsa.py `Card`: a sound card identified by its numeric index. -/
structure Card where
  index : Int
deriving DecidableEq

/-- alsa.py `Card.device`: the device identifier string `hw:<index>`. -/
def Card.device (c : Card) : String := "hw:" ++ toString c.index

/-- alsa.py `Card.__init__` with `index=None`: look up the index registered
for "default"; a negative status raises a fixed `ALSAError` (the status code
is tested inline, not passed to `_check_error`). -/
def Card.init_default (env : NativeEnv) : Res Card :=
  if env.cardGetIndexStatus < 0 then
    (.error (.ALSAError "No default card found"), [.cardGetIndex])
  else
    (.ok ⟨env.defaultIndex⟩, [.cardGetIndex])

/-- Summary string of the mixer-open step. -/
def openSummary : String := "Failed to open mixer"

/-- Summary string of the mixer-attach step (mentions the device). -/
def attachSummary (c : Card) : String := "Failed to attach mixer to " ++ c.device

/-- Summary string of the element-register step. -/
def registerSummary : String := "Failed to register mixer elements"

/-- Summary string of the element-load step. -/
def loadSummary : String := "Failed to load mixer elements"

/-- alsa.py `Card.make_alsa_mixer_handle`: open / attach / register / load,
each status checked through `_check_error`; after a successful open, the
handle is closed on every exit path (the `try`/`finally`).  `body` is the
caller's `with`-block. -/
def Card.make_alsa_mixer_handle {α : Type} (env : NativeEnv) (c : Card)
    (body : Res α) : Res α :=
  match check_error env.strerror env.openStatus openSummary with
  | .error e => (.error e, [.mixerOpen])
  | .ok _ =>
    let inner : Res α :=
      match check_error env.strerror env.attachStatus (attachSummary c) with
      | .error e => (.error e, [.mixerAttach])
      | .ok _ =>
        match check_error env.strerror env.registerStatus registerSummary with
        | .error e => (.error e, [.mixerAttach, .mixerRegister])
        | .ok _ =>
          match check_error env.strerror env.loadStatus loadSummary with
          | .error e => (.error e, [.mixerAttach, .mixerRegister, .mixerLoad])
          | .ok _ => (body.1, [.mixerAttach, .mixerRegister, .mixerLoad] ++ body.2)
    (inner.1, .mixerOpen :: (inner.2 ++ [.mixerClose]))

/-- alsa.py `Mixer`: a named, indexed mixer element of a card.  A value
object; every operation re-resolves the element. -/
structure Mixer where
  card : Card
  name : String
  index : Int
deriving DecidableEq

/-- alsa.py `Mixer._make_alsa_elem`: inside the card's mixer-handle scope,
look the element up by (name, index); raise `ALSAError` if not found. -/
def Mixer.make_alsa_elem {α : Type} (env : NativeEnv) (m : Mixer)
    (body : Res α) : Res α :=
  m.card.make_alsa_mixer_handle env
    (if env.findSelemOk then (body.1, .findSelem :: body.2)
     else
       (.error (.ALSAError ("Mixer element \x27" ++ m.name ++ "\x27 index "
          ++ toString m.index ++ " not found")), [.findSelem]))

/-- alsa.py `Mixer.has_volume_control`: query the playback-volume capability
bit inside an element scope. -/
def Mixer.has_volume_control (env : NativeEnv) (m : Mixer) : Res Bool :=
  m.make_alsa_elem env (.ok env.hasPlaybackVolume, [.hasPlaybackVolume])

/-- alsa.py `Mixer.has_mute_control`: query the playback-switch capability
bit inside an element scope. -/
def Mixer.has_mute_control (env : NativeEnv) (m : Mixer) : Res Bool :=
  m.make_alsa_elem env (.ok env.hasPlaybackSwitch, [.hasPlaybackSwitch])

/-- alsa.py `Mixer.volume_range`: `(None, None)` without volume support,
otherwise the pair reported by `snd_mixer_selem_get_playback_volume_range`.
The source discards that call's status code (the call is not wrapped in
`_check_error`), so `rangeStatus` does not appear here. -/
def Mixer.volume_range (env : NativeEnv) (m : Mixer) :
    Res (Option Int × Option Int) :=
  match m.has_volume_control env with
  | (.error e, t) => (.error e, t)
  | (.ok false, t) => (.ok (none, none), t)
  | (.ok true, t) =>
    let inner := m.make_alsa_elem env
      (.ok (some env.pmin, some env.pmax), [.getVolumeRange])
    (inner.1, t ++ inner.2)

/-- alsa.py `Mixer.volume` getter: `None` without volume support, otherwise
the channel-0 raw volume, its status checked through `_check_error`. -/
def Mixer.volume (env : NativeEnv) (store : NativeStore) (m : Mixer) :
    Res (Option Int) :=
  match m.has_volume_control env with
  | (.error e, t) => (.error e, t)
  | (.ok false, t) => (.ok none, t)
  | (.ok true, t) =>
    let inner := m.make_alsa_elem env
      (match check_error env.strerror env.getVolumeStatus
          "Failed to get playback volume" with
       | .error e => (.error e, [.getVolume])
       | .ok _ => (.ok (some store.volume), [.getVolume]))
    (inner.1, t ++ inner.2)

/-- Capability-check failure message of the raw-volume / percent setters. -/
def unsupportedVolumeMsg (name : String) : String :=
  "Mixer element \x27" ++ name ++ "\x27 doesn\x27t support playback volume"

/-- Capability-check failure message of the mute setter. -/
def unsupportedSwitchMsg (name : String) : String :=
  "Mixer element \x27" ++ name ++ "\x27 doesn\x27t support playback switch"

/-- alsa.py `Mixer.volume` setter: raise `ALSAError` without volume support,
otherwise set all channels to `value` (status checked through
`_check_error`); on success the store holds the written value. -/
def Mixer.set_volume (env : NativeEnv) (store : NativeStore) (m : Mixer)
    (value : Int) : Res NativeStore :=
  match m.has_volume_control env with
  | (.error e, t) => (.error e, t)
  | (.ok false, t) => (.error (.ALSAError (unsupportedVolumeMsg m.name)), t)
  | (.ok true, t) =>
    let inner := m.make_alsa_elem env
      (match check_error env.strerror env.setVolumeStatus
          "Failed to set playback volume" with
       | .error e => (.error e, [.setVolume value])
       | .ok _ => (.ok { store with volume := value }, [.setVolume value]))
    (inner.1, t ++ inner.2)

/-- Python `round` on an exact rational: round half to even (banker's
rounding), as Python's `round` resolves exact-half values. -/
def pyRound (q : ℚ) : ℤ :=
  if q - ⌊q⌋ < 1 / 2 then ⌊q⌋
  else if 1 / 2 < q - ⌊q⌋ then ⌊q⌋ + 1
  else if ⌊q⌋ % 2 = 0 then ⌊q⌋ else ⌊q⌋ + 1

/-- The percent-getter's conversion (alsa.py lines 178-180): `0` on a
zero-width range, else `round((raw - min) * 100 / (max - min))`. -/
def volume_percent_of_raw (vmin vmax raw : Int) : Int :=
  if vmax = vmin then 0
  else pyRound (((raw : ℚ) - (vmin : ℚ)) * 100 / ((vmax : ℚ) - (vmin : ℚ)))

/-- The percent-setter's inverse conversion (alsa.py line 203):
`round(min + value * (max - min) / 100)`. -/
def raw_of_volume_percent (vmin vmax value : Int) : Int :=
  pyRound ((vmin : ℚ) + (value : ℚ) * ((vmax : ℚ) - (vmin : ℚ)) / 100)

/-- alsa.py `Mixer.volume_percent` getter: absent raw volume gives `None`;
a zero-width (or absent-absent) range gives `0`; otherwise the linear map
rounded.  Mixed `None`/int range values would be a Python `TypeError`
(unreachable: `volume_range` returns both-`None` or both-int). -/
def Mixer.volume_percent (env : NativeEnv) (store : NativeStore) (m : Mixer) :
    Res (Option Int) :=
  match m.volume env store with
  | (.error e, t) => (.error e, t)
  | (.ok none, t) => (.ok none, t)
  | (.ok (some raw_vol), t) =>
    match m.volume_range env with
    | (.error e, t2) => (.error e, t ++ t2)
    | (.ok (vminO, vmaxO), t2) =>
      if vmaxO = vminO then (.ok (some 0), t ++ t2)
      else
        match vminO, vmaxO with
        | some vmin, some vmax =>
          (.ok (some (pyRound (((raw_vol : ℚ) - (vmin : ℚ)) * 100
             / ((vmax : ℚ) - (vmin : ℚ))))), t ++ t2)
        | _, _ =>
          (.error (.TypeError "unsupported operand type for int and NoneType"),
           t ++ t2)

/-- alsa.py `Mixer.volume_percent` setter: reject values outside `[0, 100]`
with `ValueError` before any native call; raise `ALSAError` when the range
is absent; otherwise inverse-map and delegate to the raw setter. -/
def Mixer.set_volume_percent (env : NativeEnv) (store : NativeStore)
    (m : Mixer) (value : Int) : Res NativeStore :=
  if ¬ (0 ≤ value ∧ value ≤ 100) then
    (.error (.ValueError ("Volume must be between 0 and 100, got "
       ++ toString value)), [])
  else
    match m.volume_range env with
    | (.error e, t) => (.error e, t)
    | (.ok (vminO, vmaxO), t) =>
      match vminO, vmaxO with
      | some vmin, some vmax =>
        let inner := m.set_volume env store (raw_of_volume_percent vmin vmax value)
        (inner.1, t ++ inner.2)
      | _, _ => (.error (.ALSAError (unsupportedVolumeMsg m.name)), t)

/-- alsa.py `Mixer.muted` getter: `None` without switch support; otherwise
read the channel-0 switch through `_check_error` and return the negation of
its truthiness (`unmuted = bool(value)`, result `not unmuted`). -/
def Mixer.muted (env : NativeEnv) (store : NativeStore) (m : Mixer) :
    Res (Option Bool) :=
  match m.has_mute_control env with
  | (.error e, t) => (.error e, t)
  | (.ok false, t) => (.ok none, t)
  | (.ok true, t) =>
    let inner := m.make_alsa_elem env
      (match check_error env.strerror env.getSwitchStatus
          "Failed to get playback switch" with
       | .error e => (.error e, [.getSwitch])
       | .ok _ => (.ok (some (!(store.switch != 0))), [.getSwitch]))
    (inner.1, t ++ inner.2)

/-- alsa.py `Mixer.muted` setter: raise `ALSAError` without switch support;
otherwise write `int(not value)` to all channels through `_check_error`. -/
def Mixer.set_muted (env : NativeEnv) (store : NativeStore) (m : Mixer)
    (value : Bool) : Res NativeStore :=
  match m.has_mute_control env with
  | (.error e, t) => (.error e, t)
  | (.ok false, t) => (.error (.ALSAError (unsupportedSwitchMsg m.name)), t)
  | (.ok true, t) =>
    let inner := m.make_alsa_elem env
      (match check_error env.strerror env.setSwitchStatus
          "Failed to set playback switch" with
       | .error e => (.error e, [.setSwitch (if value then 0 else 1)])
       | .ok _ => (.ok { store with switch := if value then 0 else 1 },
                   [.setSwitch (if value then 0 else 1)]))
    (inner.1, t ++ inner.2)

/-- The mixer-handle scope's four setup statuses succeed and the element
lookup succeeds. -/
abbrev NativeEnv.handleOk (env : NativeEnv) : Prop :=
  0 ≤ env.openStatus ∧ 0 ≤ env.attachStatus ∧ 0 ≤ env.registerStatus ∧
  0 ≤ env.loadStatus ∧ env.findSelemOk = true

/-- Every status-returning native call succeeds. -/
abbrev NativeEnv.ok (env : NativeEnv) : Prop :=
  env.handleOk ∧ 0 ≤ env.getVolumeStatus ∧ 0 ≤ env.setVolumeStatus ∧
  0 ≤ env.getSwitchStatus ∧ 0 ≤ env.setSwitchStatus

/-- Trace of a successful element-scoped operation whose in-scope calls are
`inner`. -/
def scopedTrace (inner : List NativeCall) : List NativeCall :=
  .mixerOpen :: (([.mixerAttach, .mixerRegister, .mixerLoad] ++ inner)
    ++ [.mixerClose])

/-- A concrete all-succeeding environment over the range `[vmin, vmax]`,
used to instantiate theorems. -/
def okEnv (vmin vmax : Int) : NativeEnv where
  strerror := fun _ => "Unknown error"
  cardGetIndexStatus := 0
  defaultIndex := 0
  openStatus := 0
  attachStatus := 0
  registerStatus := 0
  loadStatus := 0
  findSelemOk := true
  hasPlaybackVolume := true
  hasPlaybackSwitch := true
  pmin := vmin
  pmax := vmax
  rangeStatus := 0
  getVolumeStatus := 0
  setVolumeStatus := 0
  getSwitchStatus := 0
  setSwitchStatus := 0

/-- The "Master" element of card 0, a concrete mixer for instantiation. -/
def masterMixer : Mixer := { card := ⟨0⟩, name := "Master", index := 0 }

/-- A concrete store. -/
def store0 : NativeStore := { volume := 0, switch := 1 }

/-- A concrete environment for a control with neither volume nor switch
capability. -/
def noCapEnv : NativeEnv :=
  { okEnv 0 100 with hasPlaybackVolume := false, hasPlaybackSwitch := false }

/-- A concrete environment whose volume read and default-card lookup fail. -/
def volFailEnv : NativeEnv :=
  { okEnv 0 100 with getVolumeStatus := -1, cardGetIndexStatus := -1 }

/-- `pyRound` is the identity on integers. -/
theorem pyRound_intCast (n : Int) : pyRound ((n : Int) : ℚ) = n := by
  unfold pyRound
  norm_num

/-- `pyRound` moves its argument by at most one half. -/
theorem abs_pyRound_sub (q : ℚ) : |(pyRound q : ℚ) - q| ≤ 1 / 2 := by
  have hle := Int.floor_le q
  have hlt := Int.lt_floor_add_one q
  unfold pyRound
  split_ifs with h1 h2 h3
  · rw [abs_le]; constructor <;> linarith
  · rw [abs_le]; rw [not_lt] at h1; constructor <;> push_cast <;> linarith
  · rw [not_lt] at h1 h2
    rw [abs_le]; constructor <;> linarith
  · rw [not_lt] at h1 h2
    rw [abs_le]; constructor <;> push_cast <;> linarith

/-- The inverse map is exact at percent 0: it writes exactly `vmin`. -/
theorem raw_of_volume_percent_zero (vmin vmax : Int) :
    raw_of_volume_percent vmin vmax 0 = vmin := by
  unfold raw_of_volume_percent
  have h := pyRound_intCast vmin
  convert h using 2
  push_cast
  ring

/-- The inverse map is exact at percent 100: it writes exactly `vmax`. -/
theorem raw_of_volume_percent_hundred (vmin vmax : Int) :
    raw_of_volume_percent vmin vmax 100 = vmax := by
  unfold raw_of_volume_percent
  have h := pyRound_intCast vmax
  convert h using 2
  push_cast
  ring

/-- When the raw value lies in `[vmin, vmax]`, the percent conversion lands
in `[0, 100]`. -/
theorem volume_percent_of_raw_bounds (vmin vmax raw : Int)
    (h1 : vmin ≤ raw) (h2 : raw ≤ vmax) :
    0 ≤ volume_percent_of_raw vmin vmax raw ∧
      volume_percent_of_raw vmin vmax raw ≤ 100 := by
  unfold volume_percent_of_raw
  split_ifs with he
  · norm_num
  · have hlt : vmin < vmax := lt_of_le_of_ne (h1.trans h2) (fun h => he h.symm)
    have hdq : (0 : ℚ) < (vmax : ℚ) - (vmin : ℚ) := by
      rw [sub_pos]; exact_mod_cast hlt
    set q : ℚ := ((raw : ℚ) - (vmin : ℚ)) * 100 / ((vmax : ℚ) - (vmin : ℚ))
      with hq
    have hq0 : 0 ≤ q := by
      apply div_nonneg _ (le_of_lt hdq)
      have hr : (0 : ℚ) ≤ (raw : ℚ) - (vmin : ℚ) := by
        rw [sub_nonneg]; exact_mod_cast h1
      nlinarith
    have hq100 : q ≤ 100 := by
      rw [hq, div_le_iff hdq]
      have hr : ((raw : ℚ) - (vmin : ℚ)) ≤ ((vmax : ℚ) - (vmin : ℚ)) := by
        have : (raw : ℚ) ≤ (vmax : ℚ) := by exact_mod_cast h2
        linarith
      nlinarith
    have habs := abs_pyRound_sub q
    rw [abs_le] at habs
    constructor
    · have hgt : (-1 : ℚ) < (pyRound q : ℚ) := by linarith [habs.1]
      have : (-1 : Int) < pyRound q := by exact_mod_cast hgt
      omega
    · have hlt101 : ((pyRound q : ℚ)) < 101 := by linarith [habs.2]
      have : pyRound q < (101 : Int) := by exact_mod_cast hlt101
      omega

/-- Setting a percent and reading it back moves it by at most one, provided
the range is at least 34 wide. -/
theorem roundtrip_within_one (vmin vmax p : Int) (hd : 34 ≤ vmax - vmin) :
    |volume_percent_of_raw vmin vmax (raw_of_volume_percent vmin vmax p) - p|
      ≤ 1 := by
  have hne : vmax ≠ vmin := by omega
  have hdq : (34 : ℚ) ≤ (vmax : ℚ) - (vmin : ℚ) := by
    have : ((34 : Int) : ℚ) ≤ ((vmax - vmin : Int) : ℚ) := by exact_mod_cast hd
    push_cast at this
    linarith
  have hdq0 : (0 : ℚ) < (vmax : ℚ) - (vmin : ℚ) := by linarith
  unfold volume_percent_of_raw raw_of_volume_percent
  rw [if_neg hne]
  set x : ℚ := (vmin : ℚ) + (p : ℚ) * ((vmax : ℚ) - (vmin : ℚ)) / 100 with hx
  set y : ℚ := ((pyRound x : ℚ) - (vmin : ℚ)) * 100 / ((vmax : ℚ) - (vmin : ℚ))
    with hy
  have hrx : |(pyRound x : ℚ) - x| ≤ 1 / 2 := abs_pyRound_sub x
  have hpy : |(pyRound y : ℚ) - y| ≤ 1 / 2 := abs_pyRound_sub y
  have hyp : y - (p : ℚ)
      = ((pyRound x : ℚ) - x) * 100 / ((vmax : ℚ) - (vmin : ℚ)) := by
    rw [hy, hx]
    field_simp
    ring
  have habs : |y - (p : ℚ)| ≤ 50 / ((vmax : ℚ) - (vmin : ℚ)) := by
    rw [hyp, abs_div, abs_of_pos hdq0, div_le_div_iff (by positivity) hdq0]
    rw [abs_mul]
    have h100 : |(100 : ℚ)| = 100 := by norm_num
    rw [h100]
    nlinarith [abs_nonneg ((pyRound x : ℚ) - x)]
  have h50 : 50 / ((vmax : ℚ) - (vmin : ℚ)) ≤ 50 / 34 := by
    rw [div_le_div_iff hdq0 (by norm_num : (0 : ℚ) < 34)]
    linarith
  have htri : |(pyRound y : ℚ) - (p : ℚ)| ≤ 1 / 2 + 50 / 34 := by
    calc |(pyRound y : ℚ) - (p : ℚ)|
        ≤ |(pyRound y : ℚ) - y| + |y - (p : ℚ)| := abs_sub_le _ _ _
      _ ≤ 1 / 2 + 50 / 34 := by linarith
  have hlt2 : |(pyRound y : ℚ) - (p : ℚ)| < 2 := by
    apply lt_of_le_of_lt htri
    norm_num
  have hz : |pyRound y - p| < (2 : Int) := by
    have : |((pyRound y - p : Int) : ℚ)| < 2 := by push_cast; exact hlt2
    exact_mod_cast this
  omega

/-- Setting a percent and reading it back is exact when the range width is a
positive multiple of 100. -/
theorem roundtrip_exact (vmin vmax p : Int) (hd0 : 0 < vmax - vmin)
    (hd : (vmax - vmin) % 100 = 0) :
    volume_percent_of_raw vmin vmax (raw_of_volume_percent vmin vmax p) = p := by
  obtain ⟨k, hk⟩ : ∃ k : Int, vmax - vmin = 100 * k :=
    ⟨(vmax - vmin) / 100, by omega⟩
  have hkpos : 0 < k := by omega
  have hne : vmax ≠ vmin := by omega
  have hkq : ((vmax : ℚ) - (vmin : ℚ)) = 100 * (k : ℚ) := by
    have : ((vmax - vmin : Int) : ℚ) = ((100 * k : Int) : ℚ) := by
      exact_mod_cast congrArg (fun z : Int => (z : ℚ)) hk
    push_cast at this
    linarith
  have hraw : raw_of_volume_percent vmin vmax p = vmin + p * k := by
    unfold raw_of_volume_percent
    have harg : (vmin : ℚ) + (p : ℚ) * ((vmax : ℚ) - (vmin : ℚ)) / 100
        = ((vmin + p * k : Int) : ℚ) := by
      rw [hkq]
      push_cast
      ring
    rw [harg, pyRound_intCast]
  rw [hraw]
  unfold volume_percent_of_raw
  rw [if_neg hne]
  have hkne : (k : ℚ) ≠ 0 := by
    have : (0 : ℚ) < (k : ℚ) := by exact_mod_cast hkpos
    linarith
  have harg2 : (((vmin + p * k : Int) : ℚ) - (vmin : ℚ)) * 100
      / ((vmax : ℚ) - (vmin : ℚ)) = ((p : Int) : ℚ) := by
    rw [hkq]
    push_cast
    field_simp
    ring
  rw [harg2, pyRound_intCast]

/-- With the four setup statuses non-negative, the mixer-handle scope runs
its body and closes the handle afterwards. -/
theorem handle_ok_eq {α : Type} (env : NativeEnv) (c : Card)
    (h : env.handleOk) (body : Res α) :
    c.make_alsa_mixer_handle env body = (body.1, scopedTrace body.2) := by
  obtain ⟨h1, h2, h3, h4, h5⟩ := h
  have e1 : check_error env.strerror env.openStatus openSummary = .ok () := by
    unfold check_error; rw [if_neg (by omega)]
  have e2 : check_error env.strerror env.attachStatus (attachSummary c)
      = .ok () := by
    unfold check_error; rw [if_neg (by omega)]
  have e3 : check_error env.strerror env.registerStatus registerSummary
      = .ok () := by
    unfold check_error; rw [if_neg (by omega)]
  have e4 : check_error env.strerror env.loadStatus loadSummary = .ok () := by
    unfold check_error; rw [if_neg (by omega)]
  simp only [Card.make_alsa_mixer_handle, e1, e2, e3, e4, scopedTrace]

/-- With a well-behaved handle scope and a successful element lookup, the
element scope runs its body inside the usual call bracket. -/
theorem elem_ok_eq {α : Type} (env : NativeEnv) (m : Mixer)
    (h : env.handleOk) (body : Res α) :
    m.make_alsa_elem env body
      = (body.1, scopedTrace (.findSelem :: body.2)) := by
  unfold Mixer.make_alsa_elem
  rw [if_pos h.2.2.2.2, handle_ok_eq env m.card h]

/-- Under a well-behaved handle scope, `has_volume_control` reports the
native capability bit. -/
theorem has_volume_control_ok (env : NativeEnv) (m : Mixer)
    (h : env.handleOk) :
    m.has_volume_control env = (.ok env.hasPlaybackVolume,
      scopedTrace [.findSelem, .hasPlaybackVolume]) := by
  unfold Mixer.has_volume_control
  rw [elem_ok_eq env m h]

/-- Under a well-behaved handle scope, `has_mute_control` reports the native
capability bit. -/
theorem has_mute_control_ok (env : NativeEnv) (m : Mixer)
    (h : env.handleOk) :
    m.has_mute_control env = (.ok env.hasPlaybackSwitch,
      scopedTrace [.findSelem, .hasPlaybackSwitch]) := by
  unfold Mixer.has_mute_control
  rw [elem_ok_eq env m h]

/-- `volume_range` without volume support: `(None, None)`. -/
theorem volume_range_ok_none (env : NativeEnv) (m : Mixer)
    (h : env.handleOk) (hv : env.hasPlaybackVolume = false) :
    m.volume_range env = (.ok (none, none),
      scopedTrace [.findSelem, .hasPlaybackVolume]) := by
  unfold Mixer.volume_range
  rw [has_volume_control_ok env m h, hv]

/-- `volume_range` with volume support: the native pair, regardless of the
range call's status code. -/
theorem volume_range_ok_some (env : NativeEnv) (m : Mixer)
    (h : env.handleOk) (hv : env.hasPlaybackVolume = true) :
    m.volume_range env = (.ok (some env.pmin, some env.pmax),
      scopedTrace [.findSelem, .hasPlaybackVolume]
        ++ scopedTrace [.findSelem, .getVolumeRange]) := by
  unfold Mixer.volume_range
  rw [has_volume_control_ok env m h, hv, elem_ok_eq env m h]

/-- `volume` getter without volume support: `None`. -/
theorem volume_ok_none (env : NativeEnv) (store : NativeStore) (m : Mixer)
    (h : env.handleOk) (hv : env.hasPlaybackVolume = false) :
    m.volume env store = (.ok none,
      scopedTrace [.findSelem, .hasPlaybackVolume]) := by
  unfold Mixer.volume
  rw [has_volume_control_ok env m h, hv]

/-- `volume` getter with volume support and a successful native read: the
stored raw value. -/
theorem volume_ok_some (env : NativeEnv) (store : NativeStore) (m : Mixer)
    (h : env.handleOk) (hv : env.hasPlaybackVolume = true)
    (hg : 0 ≤ env.getVolumeStatus) :
    m.volume env store = (.ok (some store.volume),
      scopedTrace [.findSelem, .hasPlaybackVolume]
        ++ scopedTrace [.findSelem, .getVolume]) := by
  unfold Mixer.volume
  have e : check_error env.strerror env.getVolumeStatus
      "Failed to get playback volume" = .ok () := by
    unfold check_error; rw [if_neg (by omega)]
  rw [has_volume_control_ok env m h, hv]
  simp only [e, elem_ok_eq env m h]

/-- `volume` setter without volume support: a capability-check `ALSAError`,
whose message does not come from a native status code. -/
theorem set_volume_unsupported (env : NativeEnv) (store : NativeStore)
    (m : Mixer) (v : Int) (h : env.handleOk)
    (hv : env.hasPlaybackVolume = false) :
    m.set_volume env store v = (.error (.ALSAError (unsupportedVolumeMsg m.name)),
      scopedTrace [.findSelem, .hasPlaybackVolume]) := by
  unfold Mixer.set_volume
  rw [has_volume_control_ok env m h, hv]

/-- `volume` setter with volume support and a successful native write: the
store now holds the written value. -/
theorem set_volume_ok (env : NativeEnv) (store : NativeStore) (m : Mixer)
    (v : Int) (h : env.handleOk) (hv : env.hasPlaybackVolume = true)
    (hs : 0 ≤ env.setVolumeStatus) :
    m.set_volume env store v = (.ok { store with volume := v },
      scopedTrace [.findSelem, .hasPlaybackVolume]
        ++ scopedTrace [.findSelem, .setVolume v]) := by
  unfold Mixer.set_volume
  have e : check_error env.strerror env.setVolumeStatus
      "Failed to set playback volume" = .ok () := by
    unfold check_error; rw [if_neg (by omega)]
  rw [has_volume_control_ok env m h, hv]
  simp only [e, elem_ok_eq env m h]

/-- `volume_percent` getter without volume support: `None`. -/
theorem volume_percent_ok_none (env : NativeEnv) (store : NativeStore)
    (m : Mixer) (h : env.handleOk) (hv : env.hasPlaybackVolume = false) :
    m.volume_percent env store = (.ok none,
      scopedTrace [.findSelem, .hasPlaybackVolume]) := by
  unfold Mixer.volume_percent
  rw [volume_ok_none env store m h hv]

/-- `volume_percent` getter with volume support and successful native reads:
the linear conversion of the stored raw value (0 on a zero-width range). -/
theorem volume_percent_ok_some (env : NativeEnv) (store : NativeStore)
    (m : Mixer) (h : env.handleOk) (hv : env.hasPlaybackVolume = true)
    (hg : 0 ≤ env.getVolumeStatus) :
    m.volume_percent env store
      = (.ok (some (volume_percent_of_raw env.pmin env.pmax store.volume)),
        (scopedTrace [.findSelem, .hasPlaybackVolume]
          ++ scopedTrace [.findSelem, .getVolume])
        ++ (scopedTrace [.findSelem, .hasPlaybackVolume]
          ++ scopedTrace [.findSelem, .getVolumeRange])) := by
  unfold Mixer.volume_percent
  rw [volume_ok_some env store m h hv hg, volume_range_ok_some env m h hv]
  by_cases hpm : env.pmax = env.pmin
  · rw [volume_percent_of_raw, if_pos hpm]
    simp [hpm]
  · rw [volume_percent_of_raw, if_neg hpm]
    simp only [Option.some.injEq]
    rw [if_neg hpm]

/-- `volume_percent` setter, in-range value, volume supported, native write
succeeding: the store receives the inverse-mapped raw value. -/
theorem set_volume_percent_ok (env : NativeEnv) (store : NativeStore)
    (m : Mixer) (value : Int) (h : env.handleOk)
    (hv : env.hasPlaybackVolume = true) (hs : 0 ≤ env.setVolumeStatus)
    (hv0 : 0 ≤ value) (hv1 : value ≤ 100) :
    m.set_volume_percent env store value
      = (.ok { store with volume := raw_of_volume_percent env.pmin env.pmax value },
        (scopedTrace [.findSelem, .hasPlaybackVolume]
          ++ scopedTrace [.findSelem, .getVolumeRange])
        ++ ((scopedTrace [.findSelem, .hasPlaybackVolume]
          ++ scopedTrace [.findSelem,
              .setVolume (raw_of_volume_percent env.pmin env.pmax value)]))) := by
  unfold Mixer.set_volume_percent
  rw [if_neg (not_not_intro ⟨hv0, hv1⟩), volume_range_ok_some env m h hv]
  simp only [set_volume_ok env store m (raw_of_volume_percent env.pmin env.pmax value) h hv hs]

/-- `muted` getter without switch support: `None`. -/
theorem muted_ok_none (env : NativeEnv) (store : NativeStore) (m : Mixer)
    (h : env.handleOk) (hs : env.hasPlaybackSwitch = false) :
    m.muted env store = (.ok none,
      scopedTrace [.findSelem, .hasPlaybackSwitch]) := by
  unfold Mixer.muted
  rw [has_mute_control_ok env m h, hs]

/-- `muted` getter with switch support and a successful native read: the
negation of the stored switch value's truthiness. -/
theorem muted_ok_some (env : NativeEnv) (store : NativeStore) (m : Mixer)
    (h : env.handleOk) (hs : env.hasPlaybackSwitch = true)
    (hg : 0 ≤ env.getSwitchStatus) :
    m.muted env store = (.ok (some (!(store.switch != 0))),
      scopedTrace [.findSelem, .hasPlaybackSwitch]
        ++ scopedTrace [.findSelem, .getSwitch]) := by
  unfold Mixer.muted
  have e : check_error env.strerror env.getSwitchStatus
      "Failed to get playback switch" = .ok () := by
    unfold check_error; rw [if_neg (by omega)]
  rw [has_mute_control_ok env m h, hs]
  simp only [e, elem_ok_eq env m h]

/-- `muted` setter without switch support: a capability-check `ALSAError`,
whose message does not come from a native status code. -/
theorem set_muted_unsupported (env : NativeEnv) (store : NativeStore)
    (m : Mixer) (b : Bool) (h : env.handleOk)
    (hs : env.hasPlaybackSwitch = false) :
    m.set_muted env store b
      = (.error (.ALSAError (unsupportedSwitchMsg m.name)),
        scopedTrace [.findSelem, .hasPlaybackSwitch]) := by
  unfold Mixer.set_muted
  rw [has_mute_control_ok env m h, hs]

/-- `muted` setter with switch support and a successful native write: all
channels receive `int(not value)`. -/
theorem set_muted_ok (env : NativeEnv) (store : NativeStore) (m : Mixer)
    (b : Bool) (h : env.handleOk) (hs : env.hasPlaybackSwitch = true)
    (hw : 0 ≤ env.setSwitchStatus) :
    m.set_muted env store b
      = (.ok { store with switch := if b then 0 else 1 },
        scopedTrace [.findSelem, .hasPlaybackSwitch]
          ++ scopedTrace [.findSelem, .setSwitch (if b then 0 else 1)]) := by
  unfold Mixer.set_muted
  have e : check_error env.strerror env.setSwitchStatus
      "Failed to set playback switch" = .ok () := by
    unfold check_error; rw [if_neg (by omega)]
  rw [has_mute_control_ok env m h, hs]
  simp only [e, elem_ok_eq env m h]

/-- Two char lists differing within their first eleven entries stay different
after appending to the left one, provided it is at least eleven long. -/
theorem append_ne_of_take_eleven (a d b : List Char)
    (h11 : a.take 11 ≠ b.take 11) (hl : 11 - a.length = 0) : a ++ d ≠ b := by
  intro h
  apply h11
  have h0 := congrArg (List.take 11) h
  rw [List.take_append_eq_append_take, hl, List.take_zero, List.append_nil] at h0
  exact h0

/-- The attach summary differs from the open summary, whatever the device. -/
theorem attach_ne_open (c : Card) : attachSummary c ≠ openSummary := by
  intro hcontra
  exact append_ne_of_take_eleven ("Failed to attach mixer to " : String).data
    (c.device).data ("Failed to open mixer" : String).data (by decide) (by decide)
    (congrArg String.data hcontra)

/-- The attach summary differs from the register summary, whatever the
device. -/
theorem attach_ne_register (c : Card) : attachSummary c ≠ registerSummary := by
  intro hcontra
  exact append_ne_of_take_eleven ("Failed to attach mixer to " : String).data
    (c.device).data ("Failed to register mixer elements" : String).data
    (by decide) (by decide) (congrArg String.data hcontra)

/-- The attach summary differs from the load summary, whatever the device. -/
theorem attach_ne_load (c : Card) : attachSummary c ≠ loadSummary := by
  intro hcontra
  exact append_ne_of_take_eleven ("Failed to attach mixer to " : String).data
    (c.device).data ("Failed to load mixer elements" : String).data
    (by decide) (by decide) (congrArg String.data hcontra)

/-- C6: in the mixer-handle scope, each of the four setup steps (open,
attach, register, load) is a candidate failure point; any one failing aborts
the sequence with the error translator's message for that step's distinct
summary, and whenever the open step succeeded the handle is closed (a
`mixerClose` call appears in the trace) on every path. -/
theorem mixer_handle_scope_spec {α : Type} (env : NativeEnv) (c : Card)
    (body : Res α) :
    (0 ≤ env.openStatus →
      NativeCall.mixerClose ∈ (c.make_alsa_mixer_handle env body).2)
    ∧ (env.openStatus < 0 →
        c.make_alsa_mixer_handle env body
          = (.error (.ALSAError (openSummary ++ ": "
              ++ env.strerror env.openStatus)), [.mixerOpen]))
    ∧ (0 ≤ env.openStatus → env.attachStatus < 0 →
        (c.make_alsa_mixer_handle env body).1
          = .error (.ALSAError (attachSummary c ++ ": "
              ++ env.strerror env.attachStatus)))
    ∧ (0 ≤ env.openStatus → 0 ≤ env.attachStatus → env.registerStatus < 0 →
        (c.make_alsa_mixer_handle env body).1
          = .error (.ALSAError (registerSummary ++ ": "
              ++ env.strerror env.registerStatus)))
    ∧ (0 ≤ env.openStatus → 0 ≤ env.attachStatus → 0 ≤ env.registerStatus →
        env.loadStatus < 0 →
        (c.make_alsa_mixer_handle env body).1
          = .error (.ALSAError (loadSummary ++ ": "
              ++ env.strerror env.loadStatus)))
    ∧ (openSummary ≠ attachSummary c ∧ openSummary ≠ registerSummary ∧
        openSummary ≠ loadSummary ∧ attachSummary c ≠ registerSummary ∧
        attachSummary c ≠ loadSummary ∧ registerSummary ≠ loadSummary) := by
  have hok : ∀ (st : Int) (s : String), 0 ≤ st →
      check_error env.strerror st s = .ok () := by
    intro st s hst
    unfold check_error
    rw [if_neg (by omega)]
  have hneg : ∀ (st : Int) (s : String), st < 0 →
      check_error env.strerror st s
        = .error (.ALSAError (s ++ ": " ++ env.strerror st)) := by
    intro st s hst
    unfold check_error
    rw [if_pos hst]
  refine ⟨?_, ?_, ?_, ?_, ?_, ?_⟩
  · intro h1
    unfold Card.make_alsa_mixer_handle
    rw [hok _ _ h1]
    simp
  · intro h1
    unfold Card.make_alsa_mixer_handle
    rw [hneg _ _ h1]
  · intro h1 h2
    unfold Card.make_alsa_mixer_handle
    rw [hok _ _ h1, hneg _ _ h2]
  · intro h1 h2 h3
    unfold Card.make_alsa_mixer_handle
    rw [hok _ _ h1, hok _ _ h2, hneg _ _ h3]
  · intro h1 h2 h3 h4
    unfold Card.make_alsa_mixer_handle
    rw [hok _ _ h1, hok _ _ h2, hok _ _ h3, hneg _ _ h4]
  · exact ⟨(attach_ne_open c).symm, by decide, by decide,
      attach_ne_register c, attach_ne_load c, by decide⟩

/-- Witness for C6 at a concrete environment whose attach step fails. -/
theorem mixer_handle_scope_spec_witness :
    NativeCall.mixerClose ∈
      ((Card.mk 0).make_alsa_mixer_handle { okEnv 0 100 with attachStatus := -1 }
        ((.ok 0, []) : Res Int)).2
    ∧ ((Card.mk 0).make_alsa_mixer_handle { okEnv 0 100 with attachStatus := -1 }
        ((.ok 0, []) : Res Int)).1
      = .error (.ALSAError (attachSummary (Card.mk 0) ++ ": "
          ++ ({ okEnv 0 100 with attachStatus := -1 } : NativeEnv).strerror (-1))) :=
  ⟨(mixer_handle_scope_spec { okEnv 0 100 with attachStatus := -1 } (Card.mk 0)
      ((.ok 0, []) : Res Int)).1 (by decide),
   (mixer_handle_scope_spec { okEnv 0 100 with attachStatus := -1 } (Card.mk 0)
      ((.ok 0, []) : Res Int)).2.2.1 (by decide) (by decide)⟩

/-- C7: `_check_error` raises a typed failure exactly when the status code is
negative, with the message formatted as summary, colon-space, decoded native
message; on a non-negative code it does nothing. -/
theorem check_error_spec (strerror : Int → String) (err : Int)
    (summary : String) :
    (err < 0 →
      check_error strerror err summary
        = .error (.ALSAError (summary ++ ": " ++ strerror err)))
    ∧ (0 ≤ err → check_error strerror err summary = .ok ()) := by
  constructor
  · intro h
    unfold check_error
    rw [if_pos h]
  · intro h
    unfold check_error
    rw [if_neg (by omega)]

/-- Witness for C7: a failing and a succeeding status code. -/
theorem check_error_spec_witness :
    check_error (fun _ => "Unknown error") (-1) "Failed to open mixer"
      = .error (.ALSAError ("Failed to open mixer" ++ ": "
          ++ (fun _ : Int => "Unknown error") (-1)))
    ∧ check_error (fun _ => "Unknown error") 0 "Failed to open mixer" = .ok () :=
  ⟨(check_error_spec (fun _ => "Unknown error") (-1) "Failed to open mixer").1
      (by decide),
   (check_error_spec (fun _ => "Unknown error") 0 "Failed to open mixer").2
      (by decide)⟩

/-- C5: an out-of-range percent is rejected up front: the setter returns a
`ValueError` — a failure kind distinct from the `ALSAError` used for native
failures — and its native-call trace is empty. -/
theorem set_volume_percent_validation (env : NativeEnv) (store : NativeStore)
    (m : Mixer) (value : Int) (hout : value < 0 ∨ 100 < value) :
    m.set_volume_percent env store value
      = (.error (.ValueError ("Volume must be between 0 and 100, got "
          ++ toString value)), [])
    ∧ ∀ s : String,
        (PyError.ValueError ("Volume must be between 0 and 100, got "
          ++ toString value)) ≠ PyError.ALSAError s := by
  constructor
  · unfold Mixer.set_volume_percent
    rw [if_pos (by omega)]
  · intro s
    exact fun hcontra => PyError.noConfusion hcontra

/-- Witness for C5 at the two boundary violations named by the spec, -1 and
101. -/
theorem set_volume_percent_validation_witness :
    masterMixer.set_volume_percent (okEnv 0 100) store0 (-1)
      = (.error (.ValueError ("Volume must be between 0 and 100, got "
          ++ toString (-1 : Int))), [])
    ∧ masterMixer.set_volume_percent (okEnv 0 100) store0 101
      = (.error (.ValueError ("Volume must be between 0 and 100, got "
          ++ toString (101 : Int))), []) :=
  ⟨(set_volume_percent_validation (okEnv 0 100) store0 masterMixer (-1)
      (by decide)).1,
   (set_volume_percent_validation (okEnv 0 100) store0 masterMixer 101
      (by decide)).1⟩

/-- C3: with successful native calls, the `volume_percent` getter returns
exactly 0 on a zero-width reported range and `None` when the control lacks
volume support; being a total function over exact rationals whose dividing
branch requires `pmax ≠ pmin`, it can raise no division fault in either
case. -/
theorem volume_percent_safety (env : NativeEnv) (store : NativeStore)
    (m : Mixer) (h : env.handleOk) (hg : 0 ≤ env.getVolumeStatus) :
    (env.hasPlaybackVolume = true → env.pmin = env.pmax →
      (m.volume_percent env store).1 = .ok (some 0))
    ∧ (env.hasPlaybackVolume = false →
      (m.volume_percent env store).1 = .ok none) := by
  constructor
  · intro hv hpm
    rw [volume_percent_ok_some env store m h hv hg]
    unfold volume_percent_of_raw
    rw [if_pos hpm.symm]
  · intro hv
    rw [volume_percent_ok_none env store m h hv]

/-- Witness for C3: a zero-width range and an unsupported control. -/
theorem volume_percent_safety_witness :
    (masterMixer.volume_percent (okEnv 5 5) store0).1 = .ok (some 0)
    ∧ (masterMixer.volume_percent
        { okEnv 0 100 with hasPlaybackVolume := false } store0).1 = .ok none :=
  ⟨(volume_percent_safety (okEnv 5 5) store0 masterMixer
      (by constructor <;> decide) (by decide)).1 (by decide) (by decide),
   (volume_percent_safety { okEnv 0 100 with hasPlaybackVolume := false }
      store0 masterMixer (by constructor <;> decide) (by decide)).2 (by decide)⟩

/-- C4: when the stored raw volume lies in the reported `[pmin, pmax]`, the
`volume_percent` getter returns that value's conversion, which lies in
`[0, 100]` even under rounding. -/
theorem volume_percent_in_range (env : NativeEnv) (store : NativeStore)
    (m : Mixer) (h : env.handleOk) (hv : env.hasPlaybackVolume = true)
    (hg : 0 ≤ env.getVolumeStatus)
    (h1 : env.pmin ≤ store.volume) (h2 : store.volume ≤ env.pmax) :
    (m.volume_percent env store).1
      = .ok (some (volume_percent_of_raw env.pmin env.pmax store.volume))
    ∧ 0 ≤ volume_percent_of_raw env.pmin env.pmax store.volume
    ∧ volume_percent_of_raw env.pmin env.pmax store.volume ≤ 100 := by
  refine ⟨?_, (volume_percent_of_raw_bounds _ _ _ h1 h2).1,
    (volume_percent_of_raw_bounds _ _ _ h1 h2).2⟩
  rw [volume_percent_ok_some env store m h hv hg]

/-- Witness for C4: range `[0, 7]` with stored raw value 3. -/
theorem volume_percent_in_range_witness :
    (masterMixer.volume_percent (okEnv 0 7) { store0 with volume := 3 }).1
      = .ok (some (volume_percent_of_raw 0 7 3))
    ∧ 0 ≤ volume_percent_of_raw 0 7 3
    ∧ volume_percent_of_raw 0 7 3 ≤ 100 :=
  volume_percent_in_range (okEnv 0 7) { store0 with volume := 3 } masterMixer
    (by constructor <;> decide) (by decide) (by decide) (by decide) (by decide)

/-- C10: the percent setter is exact at the endpoints: percent 0 writes raw
`pmin` and percent 100 writes raw `pmax`. -/
theorem set_volume_percent_endpoints (env : NativeEnv) (store : NativeStore)
    (m : Mixer) (h : env.handleOk) (hv : env.hasPlaybackVolume = true)
    (hs : 0 ≤ env.setVolumeStatus) (_hminmax : env.pmin ≤ env.pmax) :
    (m.set_volume_percent env store 0).1
      = .ok { store with volume := env.pmin }
    ∧ (m.set_volume_percent env store 100).1
      = .ok { store with volume := env.pmax } := by
  constructor
  · rw [set_volume_percent_ok env store m 0 h hv hs (by norm_num) (by norm_num),
      raw_of_volume_percent_zero]
  · rw [set_volume_percent_ok env store m 100 h hv hs (by norm_num) (by norm_num),
      raw_of_volume_percent_hundred]

/-- Witness for C10: range `[2, 9]`. -/
theorem set_volume_percent_endpoints_witness :
    (masterMixer.set_volume_percent (okEnv 2 9) store0 0).1
      = .ok { store0 with volume := 2 }
    ∧ (masterMixer.set_volume_percent (okEnv 2 9) store0 100).1
      = .ok { store0 with volume := 9 } :=
  set_volume_percent_endpoints (okEnv 2 9) store0 masterMixer
    (by constructor <;> decide) (by decide) (by decide) (by decide)

/-- C8: the `muted` getter negates the channel-0 native switch value, the
setter writes `int(not value)` to all channels, and setting then reading
returns the value that was set. -/
theorem muted_roundtrip (env : NativeEnv) (store : NativeStore) (m : Mixer)
    (b : Bool) (h : env.handleOk) (hs : env.hasPlaybackSwitch = true)
    (hg : 0 ≤ env.getSwitchStatus) (hw : 0 ≤ env.setSwitchStatus) :
    (m.muted env store).1 = .ok (some (!(store.switch != 0)))
    ∧ (m.set_muted env store b).1
      = .ok { store with switch := if b then 0 else 1 }
    ∧ (m.muted env { store with switch := if b then 0 else 1 }).1
      = .ok (some b) := by
  refine ⟨?_, ?_, ?_⟩
  · rw [muted_ok_some env store m h hs hg]
  · rw [set_muted_ok env store m b h hs hw]
  · rw [muted_ok_some env { store with switch := if b then 0 else 1 } m h hs hg]
    cases b <;> simp

/-- Witness for C8 with `b = true` on a store whose switch starts at 1. -/
theorem muted_roundtrip_witness :
    (masterMixer.muted (okEnv 0 100) store0).1
      = .ok (some (!(store0.switch != 0)))
    ∧ (masterMixer.set_muted (okEnv 0 100) store0 true).1
      = .ok { store0 with switch := if true then 0 else 1 }
    ∧ (masterMixer.muted (okEnv 0 100)
        { store0 with switch := if true then 0 else 1 }).1 = .ok (some true) :=
  muted_roundtrip (okEnv 0 100) store0 masterMixer true
    (by constructor <;> decide) (by decide) (by decide) (by decide)

/-- C9: reads are permissive, writes are strict: on a control lacking the
capability, the volume / percent / mute getters return `None` without
failing, while the volume and mute setters fail with the capability-check
`ALSAError`, whose fixed message does not come from a native status code. -/
theorem reads_permissive_writes_strict (env : NativeEnv) (store : NativeStore)
    (m : Mixer) (v : Int) (b : Bool) (h : env.handleOk) :
    (env.hasPlaybackVolume = false →
      (m.volume env store).1 = .ok none
      ∧ (m.volume_percent env store).1 = .ok none
      ∧ (m.set_volume env store v).1
          = .error (.ALSAError (unsupportedVolumeMsg m.name)))
    ∧ (env.hasPlaybackSwitch = false →
      (m.muted env store).1 = .ok none
      ∧ (m.set_muted env store b).1
          = .error (.ALSAError (unsupportedSwitchMsg m.name))) := by
  constructor
  · intro hv
    exact ⟨by rw [volume_ok_none env store m h hv],
      by rw [volume_percent_ok_none env store m h hv],
      by rw [set_volume_unsupported env store m v h hv]⟩
  · intro hs
    exact ⟨by rw [muted_ok_none env store m h hs],
      by rw [set_muted_unsupported env store m b h hs]⟩

/-- Witness for C9 on a control with neither capability. -/
theorem reads_permissive_writes_strict_witness :
    ((masterMixer.volume noCapEnv store0).1 = .ok none
      ∧ (masterMixer.volume_percent noCapEnv store0).1 = .ok none
      ∧ (masterMixer.set_volume noCapEnv store0 40).1
        = .error (.ALSAError (unsupportedVolumeMsg masterMixer.name)))
    ∧ ((masterMixer.muted noCapEnv store0).1 = .ok none
      ∧ (masterMixer.set_muted noCapEnv store0 true).1
        = .error (.ALSAError (unsupportedSwitchMsg masterMixer.name))) :=
  ⟨(reads_permissive_writes_strict noCapEnv store0 masterMixer 40 true
      (by constructor <;> decide)).1 (by decide),
   (reads_permissive_writes_strict noCapEnv store0 masterMixer 40 true
      (by constructor <;> decide)).2 (by decide)⟩

/-- C1 counterexample: on the 1-wide range `[0, 1]`, setting percent 30
writes raw 0 and reads back percent 0, which is not within 1 of 30; and on
the zero-width range `[5, 5]` (whose width 0 is a multiple of 100), setting
percent 50 writes raw 5 and reads back exactly 0, not 50. -/
theorem volume_percent_roundtrip_counterexample :
    (masterMixer.set_volume_percent (okEnv 0 1) store0 30).1
      = .ok { store0 with volume := 0 }
    ∧ (masterMixer.volume_percent (okEnv 0 1) { store0 with volume := 0 }).1
      = .ok (some 0)
    ∧ ¬ (|(0 : Int) - 30| ≤ 1)
    ∧ (masterMixer.set_volume_percent (okEnv 5 5) store0 50).1
      = .ok { store0 with volume := 5 }
    ∧ (masterMixer.volume_percent (okEnv 5 5) { store0 with volume := 5 }).1
      = .ok (some 0)
    ∧ ((5 : Int) - 5) % 100 = 0 ∧ (0 : Int) ≠ 50 := by
  refine ⟨?_, ?_, by decide, ?_, ?_, by decide, by decide⟩
  · rw [set_volume_percent_ok (okEnv 0 1) store0 masterMixer 30
      (by constructor <;> decide) (by decide) (by decide) (by decide) (by decide)]
    unfold raw_of_volume_percent pyRound okEnv
    norm_num
  · rw [volume_percent_ok_some (okEnv 0 1) { store0 with volume := 0 }
      masterMixer (by constructor <;> decide) (by decide) (by decide)]
    unfold volume_percent_of_raw pyRound okEnv
    norm_num
  · rw [set_volume_percent_ok (okEnv 5 5) store0 masterMixer 50
      (by constructor <;> decide) (by decide) (by decide) (by decide) (by decide)]
    unfold raw_of_volume_percent pyRound okEnv
    norm_num
  · rw [volume_percent_ok_some (okEnv 5 5) { store0 with volume := 5 }
      masterMixer (by constructor <;> decide) (by decide) (by decide)]
    unfold volume_percent_of_raw okEnv
    norm_num

/-- C1 (amended): with native calls succeeding and the raw value stored and
returned as written, setting percent `p` (0 ≤ p ≤ 100) then reading back
yields the composed conversion; the result is within 1 of `p` provided the
range is at least 34 wide (widths up to 33 admit deviations of 2 or more),
and exactly `p` when the width is a positive multiple of 100. -/
theorem volume_percent_roundtrip (env : NativeEnv) (store : NativeStore)
    (m : Mixer) (p : Int) (h : env.handleOk)
    (hv : env.hasPlaybackVolume = true) (hg : 0 ≤ env.getVolumeStatus)
    (hs : 0 ≤ env.setVolumeStatus) (hp0 : 0 ≤ p) (hp1 : p ≤ 100) :
    (m.set_volume_percent env store p).1
      = .ok { store with volume := raw_of_volume_percent env.pmin env.pmax p }
    ∧ (m.volume_percent env
        { store with volume := raw_of_volume_percent env.pmin env.pmax p }).1
      = .ok (some (volume_percent_of_raw env.pmin env.pmax
          (raw_of_volume_percent env.pmin env.pmax p)))
    ∧ (34 ≤ env.pmax - env.pmin →
        |volume_percent_of_raw env.pmin env.pmax
          (raw_of_volume_percent env.pmin env.pmax p) - p| ≤ 1)
    ∧ (0 < env.pmax - env.pmin → (env.pmax - env.pmin) % 100 = 0 →
        volume_percent_of_raw env.pmin env.pmax
          (raw_of_volume_percent env.pmin env.pmax p) = p) := by
  refine ⟨?_, ?_, ?_, ?_⟩
  · rw [set_volume_percent_ok env store m p h hv hs hp0 hp1]
  · rw [volume_percent_ok_some env
      { store with volume := raw_of_volume_percent env.pmin env.pmax p } m h hv hg]
  · exact fun hd => roundtrip_within_one env.pmin env.pmax p hd
  · exact fun hd0 hd => roundtrip_exact env.pmin env.pmax p hd0 hd

/-- Witness for the amended C1 on the range `[0, 1000]` with percent 37. -/
theorem volume_percent_roundtrip_witness :
    (masterMixer.set_volume_percent (okEnv 0 1000) store0 37).1
      = .ok { store0 with volume := raw_of_volume_percent 0 1000 37 }
    ∧ (masterMixer.volume_percent (okEnv 0 1000)
        { store0 with volume := raw_of_volume_percent 0 1000 37 }).1
      = .ok (some (volume_percent_of_raw 0 1000
          (raw_of_volume_percent 0 1000 37)))
    ∧ (34 ≤ (1000 : Int) - 0 →
        |volume_percent_of_raw 0 1000 (raw_of_volume_percent 0 1000 37) - 37|
          ≤ 1)
    ∧ (0 < (1000 : Int) - 0 → ((1000 : Int) - 0) % 100 = 0 →
        volume_percent_of_raw 0 1000 (raw_of_volume_percent 0 1000 37) = 37) :=
  volume_percent_roundtrip (okEnv 0 1000) store0 masterMixer 37
    (by constructor <;> decide) (by decide) (by decide) (by decide)
    (by decide) (by decide)

/-- C2 counterexample: the native volume-range call returns a negative
status code, yet `volume_range` succeeds — that status code is interpreted
by no one, so not every native status is routed through `_check_error`. -/
theorem error_routing_counterexample :
    ({ okEnv 0 100 with rangeStatus := -1 } : NativeEnv).rangeStatus < 0
    ∧ (masterMixer.volume_range { okEnv 0 100 with rangeStatus := -1 }).1
      = .ok (some 0, some 100) := by
  constructor
  · decide
  · rw [volume_range_ok_some { okEnv 0 100 with rangeStatus := -1 } masterMixer
      (by constructor <;> decide) (by decide)]
    rfl

/-- C2 (amended): the status codes of the volume and switch reads and
writes (and of the four mixer-handle setup steps, see the C6 theorem) are
routed through `_check_error`, producing the summary-plus-decoded-message
failure; but the `Card` default-index lookup interprets its status code
inline, raising a fixed message without the decoded native string, and the
volume-range query discards its status code entirely, so its result is
independent of it. -/
theorem error_routing (env : NativeEnv) (store : NativeStore) (m : Mixer)
    (v : Int) (b : Bool) (s : Int) (h : env.handleOk) :
    (env.hasPlaybackVolume = true → env.getVolumeStatus < 0 →
      (m.volume env store).1 = .error (.ALSAError ("Failed to get playback volume"
        ++ ": " ++ env.strerror env.getVolumeStatus)))
    ∧ (env.hasPlaybackVolume = true → env.setVolumeStatus < 0 →
      (m.set_volume env store v).1 = .error (.ALSAError ("Failed to set playback volume"
        ++ ": " ++ env.strerror env.setVolumeStatus)))
    ∧ (env.hasPlaybackSwitch = true → env.getSwitchStatus < 0 →
      (m.muted env store).1 = .error (.ALSAError ("Failed to get playback switch"
        ++ ": " ++ env.strerror env.getSwitchStatus)))
    ∧ (env.hasPlaybackSwitch = true → env.setSwitchStatus < 0 →
      (m.set_muted env store b).1 = .error (.ALSAError ("Failed to set playback switch"
        ++ ": " ++ env.strerror env.setSwitchStatus)))
    ∧ (env.cardGetIndexStatus < 0 →
      Card.init_default env
        = (.error (.ALSAError "No default card found"), [.cardGetIndex]))
    ∧ m.volume_range { env with rangeStatus := s } = m.volume_range env := by
  have hneg : ∀ (st : Int) (sum : String), st < 0 →
      check_error env.strerror st sum
        = .error (.ALSAError (sum ++ ": " ++ env.strerror st)) := by
    intro st sum hst
    unfold check_error
    rw [if_pos hst]
  refine ⟨?_, ?_, ?_, ?_, ?_, ?_⟩
  · intro hv hst
    unfold Mixer.volume
    rw [has_volume_control_ok env m h, hv, hneg _ _ hst, elem_ok_eq env m h]
  · intro hv hst
    unfold Mixer.set_volume
    rw [has_volume_control_ok env m h, hv, hneg _ _ hst, elem_ok_eq env m h]
  · intro hs hst
    unfold Mixer.muted
    rw [has_mute_control_ok env m h, hs, hneg _ _ hst, elem_ok_eq env m h]
  · intro hs hst
    unfold Mixer.set_muted
    rw [has_mute_control_ok env m h, hs, hneg _ _ hst, elem_ok_eq env m h]
  · intro hst
    unfold Card.init_default
    rw [if_pos hst]
  · rfl

/-- Witness for the amended C2: a failing volume read produces the
translated message, and a failing default-card lookup the fixed one. -/
theorem error_routing_witness :
    (masterMixer.volume volFailEnv store0).1
      = .error (.ALSAError ("Failed to get playback volume" ++ ": "
          ++ volFailEnv.strerror volFailEnv.getVolumeStatus))
    ∧ Card.init_default volFailEnv
      = (.error (.ALSAError "No default card found"), [.cardGetIndex]) :=
  ⟨(error_routing volFailEnv store0 masterMixer 0 true 0
      (by constructor <;> decide)).1 (by decide) (by decide),
   (error_routing volFailEnv store0 masterMixer 0 true 0
      (by constructor <;> decide)).2.2.2.2.1 (by decide)⟩
